import Mathlib

/-!
Verification of the `ticker_download` viewer (`src/app.py`) against its
natural-language specification.

The program manipulates pandas DataFrames indexed by calendar dates.  We embed
a frame as its date index together with the `Close` column and the optional
`Adj Close` column (the column is absent exactly when `adjClose = none`).
Prices are modelled as rationals; a pandas `NaN` cell is modelled as `none`;
a raised Python exception is modelled as `Except.error`.
-/

/-- Calendar date (year, month 1-12, day), as carried by the frame's index. -/
structure Date where
  year : Nat
  month : Nat
  day : Nat
deriving DecidableEq, Repr

/-- Lexicographic strict order on dates. -/
def dateLT (a b : Date) : Bool :=
  decide (a.year < b.year) ||
    (decide (a.year = b.year) &&
      (decide (a.month < b.month) ||
        (decide (a.month = b.month) && decide (a.day < b.day))))

/-- Lexicographic order on dates. -/
def dateLE (a b : Date) : Bool :=
  decide (a.year < b.year) ||
    (decide (a.year = b.year) &&
      (decide (a.month < b.month) ||
        (decide (a.month = b.month) && decide (a.day ≤ b.day))))

/-- A pandas DataFrame as used by `app.py`: date index, `Close` column, and an
optional `Adj Close` column (`none` when the column is absent, as tested by
`'Adj Close' not in stock_data.columns` at line 62). -/
structure DataFrame where
  index : List Date
  close : List Rat
  adjClose : Option (List Rat)
deriving DecidableEq, Repr

/-- Model of `Series.pct_change(periods=L)` (pandas): entry `i` is
`NaN` for `i < L` and `x[i]/x[i-L] - 1 = (x[i] - x[i-L])/x[i-L]` otherwise.
The input series holds no NaN, so no fill method is involved. -/
def pct_change (xs : List Rat) (L : Nat) : List (Option Rat) :=
  (List.range xs.length).map (fun i =>
    if i < L then none
    else
      match xs.get? i, xs.get? (i - L) with
      | some a, some b => some ((a - b) / b)
      | _, _ => none)

/-- Model of `.iloc[-1]`: the last entry, raising `IndexError` on an empty
series. -/
def iloc_last (xs : List (Option Rat)) : Except String (Option Rat) :=
  match xs.getLast? with
  | some v => Except.ok v
  | none => Except.error "IndexError"

/-- One of the per-period lines 66-81 of `app.py`:
`(stock_data['Adj Close'].pct_change(periods=L).iloc[-1]) * 100`. -/
def perf_entry (adj : List Rat) (L : Nat) : Except String (Option Rat) :=
  (iloc_last (pct_change adj L)).map (fun o => o.map (fun x => x * 100))

/-- The adjusted-close column actually read by the performance code: the
`Adj Close` column when present, else (after the line-63 fallback has run)
the `Close` column. -/
def adjCol (df : DataFrame) : List Rat :=
  df.adjClose.getD df.close

/-- Lines 62-63 of `app.py`: if the `Adj Close` column is absent, insert it as
a copy of `Close` (an in-place mutation of the caller's frame). -/
def fallback (df : DataFrame) : DataFrame :=
  match df.adjClose with
  | none => { df with adjClose := some df.close }
  | some _ => df

/-- Lines 65-87 of `app.py` after the fallback: build the performance dict.
Lines 66-81 fill the six fixed-lookback entries; line 84 selects
`stock_data[stock_data.index.month == 1].iloc[0]` (the first row whose month
is January, whatever its year), raising `IndexError` when no such row exists,
and line 85 computes the YTD percentage from it. -/
def calc_perf_report (df : DataFrame) : Except String (List (String × Option Rat)) :=
  match perf_entry (adjCol df) 1, perf_entry (adjCol df) 30, perf_entry (adjCol df) 252,
      perf_entry (adjCol df) (252*3), perf_entry (adjCol df) (252*5),
      perf_entry (adjCol df) (252*10) with
  | Except.ok e1, Except.ok e1m, Except.ok e1y, Except.ok e3y, Except.ok e5y, Except.ok e10y =>
    match ((df.index.zip (adjCol df)).filter (fun p => p.1.month == 1)).head?,
        (adjCol df).getLast? with
    | some soy, some lastAdj =>
        Except.ok [("1D", e1), ("1M", e1m), ("1Y", e1y), ("3Y", e3y), ("5Y", e5y),
          ("10Y", e10y), ("YTD", some ((lastAdj - soy.2) / soy.2 * 100))]
    | _, _ => Except.error "IndexError"
  | _, _, _, _, _, _ => Except.error "IndexError"

/-- `calculate_performance` (lines 57-87).  The first component is the
returned dict (or the raised exception); the second component is the caller's
frame after the call, reflecting the in-place line-63 mutation. -/
def calculate_performance (df0 : DataFrame) :
    Except String (List (String × Option Rat)) × DataFrame :=
  (calc_perf_report (fallback df0), fallback df0)

/-- The entry the report associates to a label, `none` when the computation
raised or the label is absent. -/
def report_entry (df : DataFrame) (label : String) : Option (Option Rat) :=
  match (calculate_performance df).1 with
  | Except.ok perf => perf.lookup label
  | Except.error _ => none

/-- The keys of the returned performance dict (empty when the call raised). -/
def report_keys (df : DataFrame) : List String :=
  match (calculate_performance df).1 with
  | Except.ok perf => perf.map Prod.fst
  | Except.error _ => []

/-- Whether `calculate_performance` raises on this frame. -/
def report_raises (df : DataFrame) : Bool :=
  match (calculate_performance df).1 with
  | Except.ok _ => false
  | Except.error _ => true

/-- The label/lookback table of lines 66-81. -/
def perfTable : List (String × Nat) :=
  [("1D", 1), ("1M", 30), ("1Y", 252), ("3Y", 756), ("5Y", 1260), ("10Y", 2520)]

/-- The last entry of `pct_change xs L`, written directly: defined exactly
when the series has at least `L+1` points. -/
def lastPct (xs : List Rat) (L : Nat) : Option Rat :=
  if L + 1 ≤ xs.length then
    some ((xs.getD (xs.length - 1) 0 - xs.getD (xs.length - 1 - L) 0) /
      xs.getD (xs.length - 1 - L) 0)
  else none

/-- Days in a calendar month (with the Gregorian leap-year rule), used for the
month-end labels that `resample('ME')` puts on its bins. -/
def daysInMonth (y m : Nat) : Nat :=
  if m = 2 then (if y % 4 = 0 ∧ (y % 100 ≠ 0 ∨ y % 400 = 0) then 29 else 28)
  else if m = 4 ∨ m = 6 ∨ m = 9 ∨ m = 11 then 30
  else 31

/-- Linear index of the calendar month of a date (year, month as one number). -/
def monthIndex (d : Date) : Nat :=
  d.year * 12 + (d.month - 1)

/-- The month-end date labelling the bin of linear month index `mi`. -/
def monthEndDate (mi : Nat) : Date :=
  ⟨mi / 12, mi % 12 + 1, daysInMonth (mi / 12) (mi % 12 + 1)⟩

/-- Consecutive linear month indices from `a` to `b` inclusive. -/
def monthRange (a b : Nat) : List Nat :=
  (List.range (b + 1 - a)).map (fun i => a + i)

/-- Model of `stock_data_filtered.resample('ME').last()` (line 146) restricted
to the `Adj Close` column: one bin per calendar month-end from the first to the
last month spanned by the index, each holding the last (hence, for a
date-sorted index, maximum-date) observation of that month, and `NaN` (`none`)
for months with no observation. -/
def resampleME_last (index : List Date) (adj : List Rat) : List (Date × Option Rat) :=
  match index.head?, index.getLast? with
  | some f, some l =>
      (monthRange (monthIndex f) (monthIndex l)).map (fun mi =>
        (monthEndDate mi,
          (((index.zip adj).filter (fun p => monthIndex p.1 == mi)).map Prod.snd).getLast?))
  | _, _ => []

/-- Model of `Series.pct_change()` on the monthly `Adj Close` column
(line 149), whose cells may be `NaN`: the first entry is `NaN`, and an entry is
computed only when both it and its predecessor hold values (no forward fill,
as in current pandas). -/
def pct_change1_opt (xs : List (Option Rat)) : List (Option Rat) :=
  (List.range xs.length).map (fun i =>
    if i = 0 then none
    else
      match xs.get? i, xs.get? (i - 1) with
      | some (some a), some (some b) => some ((a - b) / b)
      | _, _ => none)

/-- A row of `stock_data_monthly` as displayed/exported: month-end index
label, `Adj Close`, and `% Change`. -/
structure MonthlyRow where
  monthEnd : Date
  adjClose : Option Rat
  pctChange : Option Rat
deriving DecidableEq, Repr

/-- Lines 144-149 of `app.py`: monthly resample of the series followed by the
month-over-month percentage-change column (`pct_change() * 100`). -/
def toMonthly (index : List Date) (adj : List Rat) : List MonthlyRow :=
  let sampled := resampleME_last index adj
  List.zipWith (fun (p : Date × Option Rat) (c : Option Rat) =>
      ⟨p.1, p.2, c.map (fun x => x * 100)⟩)
    sampled (pct_change1_opt (sampled.map Prod.snd))

/-- Single-character replacement, modelling `str.replace(old, new)` for the
one-character patterns used at line 41. -/
def replaceChar (c r : Char) (s : String) : String :=
  String.mk (s.data.map (fun a => if a == c then r else a))

/-- `prepare_for_export` (lines 36-54), at the granularity of the sheet
metadata: from the column list of the frame handed in by the caller and the
ticker/date strings, produce the sanitized filename (line 38/41), the sheet
name (line 52, named after the ticker), and the column list actually written —
line 47 (`stock_data['Date'] = stock_data.index...`) appends a `Date` column
to the caller's frame before `to_excel` writes every column. -/
def prepare_for_export (cols : List String) (ticker start_date end_date : String) :
    String × String × List String :=
  let filename := ticker ++ "_" ++ start_date ++ "_" ++ end_date ++ ".xlsx"
  let filename := replaceChar ':' '_' filename
  let filename := replaceChar '^' '_' filename
  (filename, ticker, if cols.contains "Date" then cols else cols ++ ["Date"])

/-- A Python value as returned by `fetch_stock_data`. -/
inductive Val where
  | pynone
  | frame (df : DataFrame)
  | str (s : String)
  | date (d : Date)
  | num (q : Rat)
deriving DecidableEq, Repr

/-- Minimum of a list of dates below a default, modelling `index.min()`. -/
def minDate (ds : List Date) (d : Date) : Date :=
  ds.foldl (fun a b => if dateLE a b then a else b) d

/-- `fetch_stock_data` (lines 10-34): when the fetched history is empty the
raised `ValueError` is caught and the function returns the 4-tuple
`None, None, None, None` (line 21); on success it returns the 5-tuple of
line 34 (history, long name, summary, first available date, bid). -/
def fetch_stock_data (hist : DataFrame) (longName summary : String) (bid : Rat) :
    List Val :=
  if hist.index.isEmpty then
    [Val.pynone, Val.pynone, Val.pynone, Val.pynone]
  else
    match hist.index with
    | [] => []
    | d :: ds => [Val.frame hist, Val.str longName, Val.str summary,
        Val.date (minDate ds d), Val.num bid]

/-- Line 105 of `app.py` unpacks the return of `fetch_stock_data` into five
variables; unpacking a tuple of any other arity raises `ValueError`. -/
def unpack5 (xs : List Val) : Option (Val × Val × Val × Val × Val) :=
  match xs with
  | [a, b, c, d, e] => some (a, b, c, d, e)
  | _ => none

/-- A locale, as far as `strftime` consults it here: the abbreviated month
names that the `%b` directive produces (Python docs: "%b — Month as locale's
abbreviated name"). -/
structure TimeLocale where
  monthAbbrev : Nat → String

/-- Abbreviated month names of the C/English locale. -/
def enMonthAbbrev (m : Nat) : String :=
  (["Jan", "Feb", "Mar", "Apr", "May", "Jun", "Jul", "Aug", "Sep", "Oct",
    "Nov", "Dec"]).getD (m - 1) ""

/-- The C/English locale. -/
def enLocale : TimeLocale := ⟨enMonthAbbrev⟩

/-- Abbreviated month names of the French (`fr_FR`) locale, as glibc defines
them; any locale whose abbreviations differ from English would do. -/
def frMonthAbbrev (m : Nat) : String :=
  (["janv.", "févr.", "mars", "avr.", "mai", "juin", "juil.", "août", "sept.",
    "oct.", "nov.", "déc."]).getD (m - 1) ""

/-- The French locale. -/
def frLocale : TimeLocale := ⟨frMonthAbbrev⟩

/-- Zero-padded two-digit rendering of a day number (`%d`). -/
def pad2 (n : Nat) : String :=
  if n < 10 then "0" ++ toString n else toString n

/-- Line 152 of `app.py`: `strftime('%b %d, %Y')` on a month-end date,
modelled from the documented semantics of the directives: `%b` is the
locale's abbreviated month name, `%d` the zero-padded day, `%Y` the year. -/
def strftime_b_d_Y (loc : TimeLocale) (d : Date) : String :=
  loc.monthAbbrev d.month ++ " " ++ pad2 d.day ++ ", " ++ toString d.year

lemma getLast?_range_map {α : Type} (f : Nat → α) (n : Nat) (h : n ≠ 0) :
    ((List.range n).map f).getLast? = some (f (n - 1)) := by
  obtain ⟨m, rfl⟩ := Nat.exists_eq_succ_of_ne_zero h
  rw [List.range_succ, List.map_append]
  simp

lemma pct_change_getLast? (xs : List Rat) (L : Nat) (h : xs ≠ []) :
    (pct_change xs L).getLast? = some (lastPct xs L) := by
  have hn : xs.length ≠ 0 := fun hz => h (List.length_eq_zero.mp hz)
  rw [pct_change, getLast?_range_map _ _ hn]
  by_cases hL : xs.length - 1 < L
  · rw [if_pos hL, lastPct, if_neg (by omega)]
  · have h1 : xs.length - 1 < xs.length := by omega
    have h2 : xs.length - 1 - L < xs.length := by omega
    rw [if_neg hL, List.get?_eq_get h1, List.get?_eq_get h2, lastPct, if_pos (by omega),
      List.getD_eq_get _ _ h1, List.getD_eq_get _ _ h2]

lemma perf_entry_ok (xs : List Rat) (L : Nat) (h : xs ≠ []) :
    perf_entry xs L = Except.ok ((lastPct xs L).map (fun x => x * 100)) := by
  rw [perf_entry, iloc_last, pct_change_getLast? _ _ h]
  rfl

lemma adjCol_fallback (df : DataFrame) : adjCol (fallback df) = adjCol df := by
  cases h : df.adjClose <;> simp [adjCol, fallback, h]

lemma fallback_index (df : DataFrame) : (fallback df).index = df.index := by
  cases h : df.adjClose <;> simp [fallback, h]

lemma calc_perf_report_ok (df : DataFrame) (soy : Date × Rat) (la : Rat)
    (hsoy : ((df.index.zip (adjCol df)).filter (fun p => p.1.month == 1)).head? = some soy)
    (hla : (adjCol df).getLast? = some la) :
    calc_perf_report df = Except.ok
      [("1D", (lastPct (adjCol df) 1).map (fun x => x * 100)),
       ("1M", (lastPct (adjCol df) 30).map (fun x => x * 100)),
       ("1Y", (lastPct (adjCol df) 252).map (fun x => x * 100)),
       ("3Y", (lastPct (adjCol df) 756).map (fun x => x * 100)),
       ("5Y", (lastPct (adjCol df) 1260).map (fun x => x * 100)),
       ("10Y", (lastPct (adjCol df) 2520).map (fun x => x * 100)),
       ("YTD", some ((la - soy.2) / soy.2 * 100))] := by
  have hne : adjCol df ≠ [] := by
    intro hemp
    rw [hemp] at hla
    simp at hla
  rw [calc_perf_report, perf_entry_ok _ _ hne, perf_entry_ok _ _ hne, perf_entry_ok _ _ hne,
    perf_entry_ok _ _ hne, perf_entry_ok _ _ hne, perf_entry_ok _ _ hne, hsoy, hla]

lemma perf_entry_nil (L : Nat) : perf_entry [] L = Except.error "IndexError" := rfl

lemma calc_perf_report_keys (df : DataFrame) (perf : List (String × Option Rat))
    (h : calc_perf_report df = Except.ok perf) :
    perf.map Prod.fst = ["1D", "1M", "1Y", "3Y", "5Y", "10Y", "YTD"] := by
  by_cases hne : adjCol df = []
  · rw [calc_perf_report, hne, perf_entry_nil] at h
    simp at h
  · rw [calc_perf_report, perf_entry_ok _ _ hne, perf_entry_ok _ _ hne, perf_entry_ok _ _ hne,
      perf_entry_ok _ _ hne, perf_entry_ok _ _ hne, perf_entry_ok _ _ hne] at h
    cases hs : ((df.index.zip (adjCol df)).filter (fun p => p.1.month == 1)).head? with
    | none =>
      rw [hs] at h
      cases hl : (adjCol df).getLast? <;> rw [hl] at h <;> simp at h
    | some soy =>
      rw [hs] at h
      cases hl : (adjCol df).getLast? with
      | none => rw [hl] at h; simp at h
      | some la =>
        rw [hl] at h
        simp only [Except.ok.injEq] at h
        subst h
        rfl

/-- Claim C1 (code_bug): on the series [(2022-01-15, 100), (2023-02-01, 120)],
line 84 selects the first row of the whole series whose month is January — the
2022 row — so the code reports YTD = 20, although the last point's calendar
year (2023) contains no point besides the last point itself, for which the
claim (and the spec) prescribe YTD = 0. -/
theorem ytd_uses_first_january_of_series :
    report_entry ⟨[⟨2022,1,15⟩, ⟨2023,2,1⟩], [100,120], some [100,120]⟩ "YTD"
        = some (some 20)
    ∧ report_entry ⟨[⟨2022,1,15⟩, ⟨2023,2,1⟩], [100,120], some [100,120]⟩ "YTD"
        ≠ some (some 0) := by
  have h : report_entry ⟨[⟨2022,1,15⟩, ⟨2023,2,1⟩], [100,120], some [100,120]⟩ "YTD"
      = some (some ((120 - 100) / 100 * 100)) := rfl
  rw [h]
  norm_num

/-- Claim C2 (code_bug): `calculate_performance` raises `IndexError` on the
valid two-point series (2023-02-01, 100), (2023-02-02, 110) — a series with no
January-dated point — because line 84 takes `.iloc[0]` of an empty selection;
the claim says the report never fails for a valid non-empty series.  The
lookback part of the claim does hold: on a two-point series that contains a
January point, the 1M entry is the NaN marker, not an exception. -/
theorem calc_performance_raises_without_january :
    report_raises ⟨[⟨2023,2,1⟩, ⟨2023,2,2⟩], [100,110], some [100,110]⟩ = true
    ∧ report_entry ⟨[⟨2023,1,31⟩, ⟨2023,2,1⟩], [100,105], some [100,105]⟩ "1M"
        = some none :=
  ⟨rfl, rfl⟩

/-- Claim C8, counterexample: on the non-empty constant series consisting of
the single point (2023-01-31, 50) — constant C = 50 > 0 — the 1D entry is the
NaN insufficient-history marker, not 0.0 as the claim states. -/
theorem constant_short_series_entry_not_zero :
    report_entry ⟨[⟨2023,1,31⟩], [50], some [50]⟩ "1D" = some none
    ∧ report_entry ⟨[⟨2023,1,31⟩], [50], some [50]⟩ "1D" ≠ some (some 0) := by
  have h : report_entry ⟨[⟨2023,1,31⟩], [50], some [50]⟩ "1D" = some none := rfl
  rw [h]
  simp

/-- Claim C4, counterexample: running `calculate_performance` on a frame with
no adjusted-close column, the returned report's keys are only the seven period
labels — no `usedCloseFallback` flag is set anywhere, so the fallback is not
observable to the caller. -/
theorem no_usedCloseFallback_flag :
    "usedCloseFallback" ∉ report_keys ⟨[⟨2023,1,31⟩, ⟨2023,2,1⟩], [100,110], none⟩ := by
  decide

/-- Claim C4 (amended): when the adjusted-close column is absent from the
input, every output point has adjustedClose == close (the column is filled in
from Close), but the result carries no `usedCloseFallback` flag: the report
holds nothing but the seven period labels. -/
theorem adjclose_filled_but_fallback_unobservable (df : DataFrame)
    (h : df.adjClose = none) :
    (calculate_performance df).2.adjClose = some df.close
    ∧ "usedCloseFallback" ∉ report_keys df := by
  constructor
  · show (fallback df).adjClose = some df.close
    simp [fallback, h]
  · simp only [report_keys]
    cases hr : (calculate_performance df).1 with
    | error e => simp
    | ok perf =>
      simp only []
      rw [calc_perf_report_keys (fallback df) perf hr]
      decide

/-- Claim C4, witness for `adjclose_filled_but_fallback_unobservable`. -/
theorem adjclose_filled_witness :
    (calculate_performance ⟨[⟨2023,1,31⟩], [100], none⟩).2.adjClose = some [100]
    ∧ "usedCloseFallback" ∉ report_keys ⟨[⟨2023,1,31⟩], [100], none⟩ :=
  adjclose_filled_but_fallback_unobservable ⟨[⟨2023,1,31⟩], [100], none⟩ rfl

/-- Claim C5 (code_bug): when the fetched history is empty, `fetch_stock_data`
returns the 4-tuple `None, None, None, None` (line 21) while the caller at
line 105 unpacks five variables; unpacking a 4-tuple into five targets raises
`ValueError`, so the failure is not delivered as a value and the run aborts. -/
theorem fetch_error_tuple_unpack_fails :
    unpack5 (fetch_stock_data ⟨[], [], none⟩ "Unknown" "No description" 0) = none
    ∧ ∀ df : DataFrame, df.index ≠ [] →
        (unpack5 (fetch_stock_data df "n" "d" 0)).isSome = true := by
  refine ⟨rfl, ?_⟩
  intro df hne
  cases hidx : df.index with
  | nil => exact absurd hidx hne
  | cons d ds => simp [fetch_stock_data, unpack5, hidx]

/-- Claim C5, witness for `fetch_error_tuple_unpack_fails`. -/
theorem fetch_error_tuple_unpack_fails_witness :
    unpack5 (fetch_stock_data ⟨[], [], none⟩ "Unknown" "No description" 0) = none
    ∧ (unpack5 (fetch_stock_data ⟨[⟨2023,1,31⟩], [100], some [100]⟩ "n" "d" 0)).isSome
        = true :=
  ⟨(fetch_error_tuple_unpack_fails).1,
    (fetch_error_tuple_unpack_fails).2 ⟨[⟨2023,1,31⟩], [100], some [100]⟩ (by decide)⟩

/-- Claim C6, counterexample: `calculate_performance` mutates the caller's
frame — called on a frame without the adjusted-close column, the frame seen by
the caller afterwards differs from the one passed in (it has gained an
`Adj Close` column). -/
theorem calc_performance_mutates_input :
    (calculate_performance ⟨[⟨2023,1,31⟩], [100], none⟩).2
      ≠ ⟨[⟨2023,1,31⟩], [100], none⟩ := by
  intro h
  have h2 : (some [100] : Option (List Rat)) = none := congrArg DataFrame.adjClose h
  cases h2

/-- Claim C6 (amended): the computations are deterministic functions of their
inputs and share no state across calls, but they are not mutation-free:
`calculate_performance` leaves a frame that already has the adjusted-close
column untouched, yet on a frame without it it mutates the caller's frame in
place, inserting `Adj Close` as a copy of `Close` (lines 62-63); and
`prepare_for_export` mutates its input frame by appending a `Date` column
(line 47) before writing. -/
theorem core_mutation_frame_conditions (df : DataFrame) (cols : List String)
    (t s e : String) (hA : df.adjClose ≠ none) (hD : "Date" ∉ cols) :
    (calculate_performance df).2 = df
    ∧ (calculate_performance { df with adjClose := none }).2
        = { df with adjClose := some df.close }
    ∧ (prepare_for_export cols t s e).2.2 = cols ++ ["Date"] := by
  refine ⟨?_, ?_, ?_⟩
  · show fallback df = df
    cases hA' : df.adjClose with
    | none => exact absurd hA' hA
    | some a => simp [fallback, hA']
  · show fallback { df with adjClose := none } = { df with adjClose := some df.close }
    simp [fallback]
  · have hc : cols.contains "Date" = false := by simpa using hD
    simp [prepare_for_export, hc]
    exact hD

/-- Claim C6, witness for `core_mutation_frame_conditions`. -/
theorem core_mutation_frame_conditions_witness :
    (calculate_performance ⟨[⟨2023,1,31⟩], [100], some [100]⟩).2
        = ⟨[⟨2023,1,31⟩], [100], some [100]⟩
    ∧ (calculate_performance
          { DataFrame.mk [⟨2023,1,31⟩] [100] (some [100]) with adjClose := none }).2
        = { DataFrame.mk [⟨2023,1,31⟩] [100] (some [100]) with adjClose := some [100] }
    ∧ (prepare_for_export ["Formatted Date", "Adj Close", "% Change"] "AAPL"
          "2020-01-01" "2020-12-31").2.2
        = ["Formatted Date", "Adj Close", "% Change"] ++ ["Date"] :=
  core_mutation_frame_conditions ⟨[⟨2023,1,31⟩], [100], some [100]⟩
    ["Formatted Date", "Adj Close", "% Change"] "AAPL" "2020-01-01" "2020-12-31"
    (by simp) (by decide)

lemma calc_perf_report_ok_inv (df : DataFrame) (perf : List (String × Option Rat))
    (h : calc_perf_report df = Except.ok perf) :
    ∃ soy la,
      ((df.index.zip (adjCol df)).filter (fun p => p.1.month == 1)).head? = some soy
      ∧ (adjCol df).getLast? = some la := by
  by_cases hne : adjCol df = []
  · rw [calc_perf_report, hne, perf_entry_nil] at h
    simp at h
  · rw [calc_perf_report, perf_entry_ok _ _ hne, perf_entry_ok _ _ hne, perf_entry_ok _ _ hne,
      perf_entry_ok _ _ hne, perf_entry_ok _ _ hne, perf_entry_ok _ _ hne] at h
    cases hs : ((df.index.zip (adjCol df)).filter (fun p => p.1.month == 1)).head? with
    | none =>
      rw [hs] at h
      cases hl : (adjCol df).getLast? <;> rw [hl] at h <;> simp at h
    | some soy =>
      rw [hs] at h
      cases hl : (adjCol df).getLast? with
      | none => rw [hl] at h; simp at h
      | some la => exact ⟨soy, la, rfl, rfl⟩

/-- Claim C3 (confirmed): whenever `calculate_performance` returns a report,
the entry for each label in {1D, 1M, 1Y, 3Y, 5Y, 10Y} on a series with at
least L+1 points is exactly
`(adjustedClose[last] - adjustedClose[last-L]) / adjustedClose[last-L] * 100`
for the corresponding trading-day offset L in {1, 30, 252, 756, 1260, 2520},
`last` being the final index of the (post-fallback) adjusted-close column. -/
theorem perf_label_matches_formula (df : DataFrame) (label : String) (L : Nat)
    (hmem : (label, L) ∈ perfTable)
    (hlen : L + 1 ≤ (adjCol df).length)
    (perf : List (String × Option Rat))
    (hok : (calculate_performance df).1 = Except.ok perf) :
    perf.lookup label = some (some
      (((adjCol df).getD ((adjCol df).length - 1) 0 -
          (adjCol df).getD ((adjCol df).length - 1 - L) 0) /
        (adjCol df).getD ((adjCol df).length - 1 - L) 0 * 100)) := by
  have hok' : calc_perf_report (fallback df) = Except.ok perf := hok
  obtain ⟨soy, la, hs, hl⟩ := calc_perf_report_ok_inv (fallback df) perf hok'
  rw [calc_perf_report_ok (fallback df) soy la hs hl] at hok'
  simp only [Except.ok.injEq] at hok'
  subst hok'
  rw [adjCol_fallback]
  simp only [perfTable, List.mem_cons, Prod.mk.injEq, List.not_mem_nil, or_false] at hmem
  rcases hmem with ⟨rfl, rfl⟩ | ⟨rfl, rfl⟩ | ⟨rfl, rfl⟩ | ⟨rfl, rfl⟩ | ⟨rfl, rfl⟩ | ⟨rfl, rfl⟩ <;>
    (simp only [lastPct]; rw [if_pos hlen]; rfl)

/-- Claim C3, witness for `perf_label_matches_formula` at the two-point series
(2023-01-01, 100), (2023-01-02, 110) and label 1D. -/
theorem perf_label_matches_formula_witness :
    List.lookup "1D"
        [("1D", some (((110:Rat) - 100) / 100 * 100)), ("1M", none), ("1Y", none),
         ("3Y", none), ("5Y", none), ("10Y", none),
         ("YTD", some (((110:Rat) - 100) / 100 * 100))]
      = some (some
        (((adjCol ⟨[⟨2023,1,1⟩, ⟨2023,1,2⟩], [100,110], some [100,110]⟩).getD
            ((adjCol ⟨[⟨2023,1,1⟩, ⟨2023,1,2⟩], [100,110], some [100,110]⟩).length - 1) 0 -
          (adjCol ⟨[⟨2023,1,1⟩, ⟨2023,1,2⟩], [100,110], some [100,110]⟩).getD
            ((adjCol ⟨[⟨2023,1,1⟩, ⟨2023,1,2⟩], [100,110], some [100,110]⟩).length - 1 - 1) 0) /
          (adjCol ⟨[⟨2023,1,1⟩, ⟨2023,1,2⟩], [100,110], some [100,110]⟩).getD
            ((adjCol ⟨[⟨2023,1,1⟩, ⟨2023,1,2⟩], [100,110], some [100,110]⟩).length - 1 - 1) 0
          * 100)) :=
  perf_label_matches_formula ⟨[⟨2023,1,1⟩, ⟨2023,1,2⟩], [100,110], some [100,110]⟩ "1D" 1
    (by decide) (by decide)
    [("1D", some (((110:Rat) - 100) / 100 * 100)), ("1M", none), ("1Y", none),
     ("3Y", none), ("5Y", none), ("10Y", none),
     ("YTD", some (((110:Rat) - 100) / 100 * 100))]
    rfl

lemma lastPct_const (adj : List Rat) (C : Rat) (L : Nat)
    (hconst : ∀ x ∈ adj, x = C) (hlen : L + 1 ≤ adj.length) :
    lastPct adj L = some 0 := by
  have hval : ∀ i, i < adj.length → adj.getD i 0 = C := by
    intro i hi
    rw [List.getD_eq_getElem _ _ hi]
    exact hconst _ (List.getElem_mem hi)
  have h1 : adj.getD (adj.length - 1) 0 = C := hval _ (by omega)
  have h2 : adj.getD (adj.length - 1 - L) 0 = C := hval _ (by omega)
  simp only [lastPct, if_pos hlen, h1, h2]
  simp

/-- Claim C8 (amended): on a series whose adjusted-close values all equal a
constant C > 0, provided the series contains at least one January-dated point
(otherwise the YTD step raises, see the C2 analysis), every label whose
lookback L satisfies length ≥ L+1 gets 0.0, and YTD gets 0.0; labels with
fewer than L+1 points get the NaN marker instead (see the C8 counterexample). -/
theorem constant_series_zero_performance (index : List Date) (cl adj : List Rat)
    (C : Rat) (label : String) (L : Nat)
    (hC : 0 < C)
    (hconst : ∀ x ∈ adj, x = C)
    (hjan : ∃ p ∈ index.zip adj, p.1.month = 1)
    (hmem : (label, L) ∈ perfTable)
    (hlen : L + 1 ≤ adj.length) :
    report_entry ⟨index, cl, some adj⟩ label = some (some 0)
    ∧ report_entry ⟨index, cl, some adj⟩ "YTD" = some (some 0) := by
  obtain ⟨p, hpmem, hpjan⟩ := hjan
  have hpfil : p ∈ (index.zip adj).filter (fun q => q.1.month == 1) :=
    List.mem_filter.mpr ⟨hpmem, by simpa using hpjan⟩
  obtain ⟨soy, hs⟩ : ∃ soy,
      ((index.zip adj).filter (fun q => q.1.month == 1)).head? = some soy := by
    cases hfil : (index.zip adj).filter (fun q => q.1.month == 1) with
    | nil => rw [hfil] at hpfil; cases hpfil
    | cons a t => exact ⟨a, rfl⟩
  have hsoymem : soy ∈ (index.zip adj).filter (fun q => q.1.month == 1) :=
    List.mem_of_mem_head? hs
  have hsoyC : soy.2 = C := by
    have hz : soy ∈ index.zip adj := (List.mem_filter.mp hsoymem).1
    exact hconst _ (List.of_mem_zip hz).2
  have hne : adj ≠ [] := by
    intro hemp
    rw [hemp] at hlen
    simp at hlen
  have hl : adj.getLast? = some (adj.getLast hne) :=
    List.getLast?_eq_getLast_of_ne_nil hne
  have hlaC : adj.getLast hne = C := hconst _ (List.getLast_mem hne)
  have hrep : (calculate_performance ⟨index, cl, some adj⟩).1 = Except.ok
      [("1D", (lastPct adj 1).map (fun x => x * 100)),
       ("1M", (lastPct adj 30).map (fun x => x * 100)),
       ("1Y", (lastPct adj 252).map (fun x => x * 100)),
       ("3Y", (lastPct adj 756).map (fun x => x * 100)),
       ("5Y", (lastPct adj 1260).map (fun x => x * 100)),
       ("10Y", (lastPct adj 2520).map (fun x => x * 100)),
       ("YTD", some ((adj.getLast hne - soy.2) / soy.2 * 100))] :=
    calc_perf_report_ok ⟨index, cl, some adj⟩ soy (adj.getLast hne) hs hl
  constructor
  · simp only [perfTable, List.mem_cons, Prod.mk.injEq, List.not_mem_nil, or_false] at hmem
    rcases hmem with ⟨rfl, rfl⟩ | ⟨rfl, rfl⟩ | ⟨rfl, rfl⟩ | ⟨rfl, rfl⟩ | ⟨rfl, rfl⟩ |
        ⟨rfl, rfl⟩ <;>
      (simp only [report_entry, hrep]
       simp only [List.lookup]
       rw [lastPct_const adj C _ hconst hlen]
       simp)
  · simp only [report_entry, hrep]
    simp only [List.lookup]
    rw [hsoyC, hlaC]
    simp

/-- Claim C8, witness for `constant_series_zero_performance` at the constant
two-point series (2023-01-31, 50), (2023-02-01, 50) and label 1D. -/
theorem constant_series_zero_performance_witness :
    report_entry ⟨[⟨2023,1,31⟩, ⟨2023,2,1⟩], [50,50], some [50,50]⟩ "1D" = some (some 0)
    ∧ report_entry ⟨[⟨2023,1,31⟩, ⟨2023,2,1⟩], [50,50], some [50,50]⟩ "YTD"
        = some (some 0) :=
  constant_series_zero_performance [⟨2023,1,31⟩, ⟨2023,2,1⟩] [50,50] [50,50] 50 "1D" 1
    (by norm_num)
    (by intro x hx; simpa using hx)
    ⟨(⟨2023,1,31⟩, 50), List.mem_cons_self _ _, rfl⟩
    (by decide) (by decide)

/-- Claim C9, counterexample: the sheet written for the ^GSPC example does not
have the three claimed columns — `prepare_for_export` first appends a `Date`
column (line 47), so four columns are written. -/
theorem export_columns_not_the_three_claimed :
    (prepare_for_export ["Formatted Date", "Adj Close", "% Change"] "^GSPC"
        "2020-01-01" "2020:12:31").2.2
      ≠ ["Formatted Date", "Adj Close", "% Change"] := by
  decide

/-- Claim C9 (amended): the export produces one sheet named after the ticker
with columns [Formatted Date, Adj Close, % Change, Date] — the `Date` column
is appended by `prepare_for_export` before writing — and the filename is
`{symbol}_{startDate}_{endDate}.xlsx` with every ':' and '^' replaced by '_';
in particular the ^GSPC example yields `_GSPC_2020-01-01_2020_12_31.xlsx`. -/
theorem export_sheet_filename_and_columns (cols : List String) (ticker s e : String)
    (hD : "Date" ∉ cols) :
    (prepare_for_export cols ticker s e).1
        = replaceChar '^' '_' (replaceChar ':' '_' (ticker ++ "_" ++ s ++ "_" ++ e ++ ".xlsx"))
    ∧ (prepare_for_export cols ticker s e).2.1 = ticker
    ∧ (prepare_for_export cols ticker s e).2.2 = cols ++ ["Date"]
    ∧ (prepare_for_export ["Formatted Date", "Adj Close", "% Change"] "^GSPC"
          "2020-01-01" "2020:12:31").1 = "_GSPC_2020-01-01_2020_12_31.xlsx" := by
  refine ⟨rfl, rfl, ?_, rfl⟩
  have hc : cols.contains "Date" = false := by simpa using hD
  simp [prepare_for_export, hc]
  exact hD

/-- Claim C9, witness for `export_sheet_filename_and_columns`. -/
theorem export_sheet_filename_and_columns_witness :
    (prepare_for_export ["Formatted Date", "Adj Close", "% Change"] "^GSPC" "2020-01-01"
          "2020:12:31").1
        = replaceChar '^' '_' (replaceChar ':' '_'
            ("^GSPC" ++ "_" ++ "2020-01-01" ++ "_" ++ "2020:12:31" ++ ".xlsx"))
    ∧ (prepare_for_export ["Formatted Date", "Adj Close", "% Change"] "^GSPC" "2020-01-01"
          "2020:12:31").2.1 = "^GSPC"
    ∧ (prepare_for_export ["Formatted Date", "Adj Close", "% Change"] "^GSPC" "2020-01-01"
          "2020:12:31").2.2 = ["Formatted Date", "Adj Close", "% Change"] ++ ["Date"]
    ∧ (prepare_for_export ["Formatted Date", "Adj Close", "% Change"] "^GSPC"
          "2020-01-01" "2020:12:31").1 = "_GSPC_2020-01-01_2020_12_31.xlsx" :=
  export_sheet_filename_and_columns ["Formatted Date", "Adj Close", "% Change"] "^GSPC"
    "2020-01-01" "2020:12:31" (by decide)

/-- Claim C10, counterexample: the `%b` directive renders the locale's
abbreviated month name, so on 2024-01-31 a French-locale run produces
"janv. 31, 2024" while an English-locale run produces "Jan 31, 2024" — the
label is not locale-independent. -/
theorem formatted_label_locale_dependent :
    strftime_b_d_Y frLocale ⟨2024,1,31⟩ ≠ strftime_b_d_Y enLocale ⟨2024,1,31⟩ := by
  decide

/-- Claim C10 (amended): the formatted label is a deterministic rendering of
the month-end date as month abbreviation, day and 4-digit year whose locale
dependence is exactly the `%b` month abbreviation: two locales agreeing on the
abbreviation of the date's month produce identical labels, and the C/English
locale renders 2024-01-31 as "Jan 31, 2024"; under locales with different
month abbreviations the labels differ (see the counterexample). -/
theorem formatted_label_fixed_given_locale (l1 l2 : TimeLocale) (d : Date)
    (h : l1.monthAbbrev d.month = l2.monthAbbrev d.month) :
    strftime_b_d_Y l1 d = strftime_b_d_Y l2 d
    ∧ strftime_b_d_Y enLocale ⟨2024,1,31⟩ = "Jan 31, 2024" :=
  ⟨by simp only [strftime_b_d_Y, h], rfl⟩

/-- Claim C10, witness for `formatted_label_fixed_given_locale`. -/
theorem formatted_label_fixed_given_locale_witness :
    strftime_b_d_Y enLocale ⟨2024,1,31⟩ = strftime_b_d_Y enLocale ⟨2024,1,31⟩
    ∧ strftime_b_d_Y enLocale ⟨2024,1,31⟩ = "Jan 31, 2024" :=
  formatted_label_fixed_given_locale enLocale enLocale ⟨2024,1,31⟩ rfl

lemma dateLE_refl (a : Date) : dateLE a a = true := by
  simp [dateLE]

lemma dateLT_dateLE_trans (a b c : Date) (h1 : dateLT a b = true)
    (h2 : dateLE b c = true) : dateLE a c = true := by
  simp only [dateLT, dateLE, Bool.or_eq_true, Bool.and_eq_true, decide_eq_true_eq] at *
  omega

lemma dateLT_trans (a b c : Date) (h1 : dateLT a b = true) (h2 : dateLT b c = true) :
    dateLT a c = true := by
  simp only [dateLT, Bool.or_eq_true, Bool.and_eq_true, decide_eq_true_eq] at *
  omega

lemma chain'_key_getLast_max {α : Type} (key : α → Date) (l : List α) :
    List.Chain' (fun a b => dateLT (key a) (key b) = true) l →
      ∀ q, l.getLast? = some q → ∀ p ∈ l, dateLE (key p) (key q) = true := by
  induction l with
  | nil => intro _ q hq; simp at hq
  | cons a t ih =>
    intro hc q hq p hp
    cases t with
    | nil =>
      simp at hq hp
      subst hq
      subst hp
      exact dateLE_refl _
    | cons b t' =>
      have hq' : (b :: t').getLast? = some q := by
        rw [← hq, List.getLast?_cons_cons]
      have hc' : List.Chain' (fun a b => dateLT (key a) (key b) = true) (b :: t') :=
        (List.chain'_cons.mp hc).2
      have hab : dateLT (key a) (key b) = true := (List.chain'_cons.mp hc).1
      rcases List.mem_cons.mp hp with rfl | hp'
      · have hbq : dateLE (key b) (key q) = true :=
          ih hc' q hq' b (List.mem_cons_self _ _)
        exact dateLT_dateLE_trans _ _ _ hab hbq
      · exact ih hc' q hq' p hp'

lemma chain'_zip_fst (index : List Date) :
    ∀ (adj : List Rat), List.Chain' (fun a b => dateLT a b = true) index →
      List.Chain' (fun p q : Date × Rat => dateLT p.1 q.1 = true) (index.zip adj) := by
  induction index with
  | nil => intro adj _; simp
  | cons a t ih =>
    intro adj h
    cases adj with
    | nil => simp
    | cons x adj' =>
      rw [List.zip_cons_cons]
      cases t with
      | nil => simp
      | cons b t' =>
        cases adj' with
        | nil => simp
        | cons y adj'' =>
          rw [List.zip_cons_cons, List.chain'_cons]
          refine ⟨(List.chain'_cons.mp h).1, ?_⟩
          rw [← List.zip_cons_cons]
          exact ih (y :: adj'') (List.chain'_cons.mp h).2

lemma length_pct_change1_opt (xs : List (Option Rat)) :
    (pct_change1_opt xs).length = xs.length := by
  simp [pct_change1_opt]

lemma pct_change1_opt_head? (xs : List (Option Rat)) (h : xs ≠ []) :
    (pct_change1_opt xs).head? = some none := by
  cases xs with
  | nil => contradiction
  | cons a t =>
    simp [pct_change1_opt, List.range_succ_eq_map]

lemma zipWith_mk_map_pair (l : List (Date × Option Rat)) :
    ∀ (l' : List (Option Rat)), l.length = l'.length →
      (List.zipWith (fun (p : Date × Option Rat) (c : Option Rat) =>
          MonthlyRow.mk p.1 p.2 (c.map (fun x => x * 100))) l l').map
        (fun r => (r.monthEnd, r.adjClose)) = l := by
  induction l with
  | nil => intro l' _; simp
  | cons a t ih =>
    intro l' h
    cases l' with
    | nil => simp at h
    | cons b t' =>
      simp only [List.zipWith_cons_cons, List.map_cons]
      simp only [List.length_cons, Nat.add_right_cancel_iff] at h
      simp [ih t' h]

lemma zipWith_mk_map_pct (l : List (Date × Option Rat)) :
    ∀ (l' : List (Option Rat)), l.length = l'.length →
      (List.zipWith (fun (p : Date × Option Rat) (c : Option Rat) =>
          MonthlyRow.mk p.1 p.2 (c.map (fun x => x * 100))) l l').map
        MonthlyRow.pctChange = l'.map (Option.map (fun x => x * 100)) := by
  induction l with
  | nil =>
    intro l' h
    cases l' with
    | nil => simp
    | cons b t' => simp at h
  | cons a t ih =>
    intro l' h
    cases l' with
    | nil => simp at h
    | cons b t' =>
      simp only [List.zipWith_cons_cons, List.map_cons]
      simp only [List.length_cons, Nat.add_right_cancel_iff] at h
      simp [ih t' h]

lemma toMonthly_map_pair (index : List Date) (adj : List Rat) :
    (toMonthly index adj).map (fun r => (r.monthEnd, r.adjClose))
      = resampleME_last index adj := by
  exact zipWith_mk_map_pair _ _ (by simp [length_pct_change1_opt])

lemma toMonthly_map_pct (index : List Date) (adj : List Rat) :
    (toMonthly index adj).map MonthlyRow.pctChange
      = (pct_change1_opt ((resampleME_last index adj).map Prod.snd)).map
          (Option.map (fun x => x * 100)) := by
  exact zipWith_mk_map_pct _ _ (by simp [length_pct_change1_opt])

lemma resampleME_last_eq (index : List Date) (adj : List Rat) (f l : Date)
    (hf : index.head? = some f) (hl : index.getLast? = some l) :
    resampleME_last index adj
      = (monthRange (monthIndex f) (monthIndex l)).map (fun mi =>
          (monthEndDate mi,
            (((index.zip adj).filter (fun p => monthIndex p.1 == mi)).map
              Prod.snd).getLast?)) := by
  unfold resampleME_last
  rw [hf, hl]

/-- Claim C7, counterexample: on the series [(2023-01-31, 100), (2023-03-31, 99)]
— whose (year, month) groups are January and March 2023 only — the monthly
resample emits three rows, one per calendar month-end in the contiguous span,
including a February row with no value; the claim's "exactly one MonthlyPoint
per (year, month) group present" would give two rows. -/
theorem toMonthly_emits_row_for_absent_month :
    (toMonthly [⟨2023,1,31⟩, ⟨2023,3,31⟩] [100, 99]).map
        (fun r => (r.monthEnd, r.adjClose))
      = [(⟨2023,1,31⟩, some 100), (⟨2023,2,28⟩, none), (⟨2023,3,31⟩, some 99)]
    ∧ (toMonthly [⟨2023,1,31⟩, ⟨2023,3,31⟩] [100, 99]).length ≠ 2 :=
  ⟨rfl, by decide⟩

/-- Claim C7 (amended): `toMonthly` produces exactly one MonthlyPoint per
calendar month-end in the contiguous range from the first to the last month of
the series (months with no points yield a row with null adjustedClose), in
chronological order; within each month it keeps the last — and, the series
being date-sorted, maximum-date — point's value; percentChange is null for the
first row and `(adjClose[i]-adjClose[i-1])/adjClose[i-1]*100` where both
consecutive months hold data; the three-point January–March example yields the
percentChange sequence [null, 10.0, -10.0]. -/
theorem toMonthly_month_bins (index : List Date) (adj : List Rat) (f l : Date)
    (mi : Nat) (q p : Date × Rat) (r0 : MonthlyRow)
    (hf : index.head? = some f) (hl : index.getLast? = some l)
    (hch : List.Chain' (fun a b => dateLT a b = true) index)
    (hq : ((index.zip adj).filter (fun r => monthIndex r.1 == mi)).getLast? = some q)
    (hp : p ∈ (index.zip adj).filter (fun r => monthIndex r.1 == mi))
    (hr0 : (toMonthly index adj).head? = some r0) :
    (toMonthly index adj).map (fun r => (r.monthEnd, r.adjClose))
        = (monthRange (monthIndex f) (monthIndex l)).map (fun mj =>
            (monthEndDate mj,
              (((index.zip adj).filter (fun r => monthIndex r.1 == mj)).map
                Prod.snd).getLast?))
    ∧ dateLE p.1 q.1 = true
    ∧ (toMonthly index adj).map MonthlyRow.pctChange
        = (pct_change1_opt ((toMonthly index adj).map MonthlyRow.adjClose)).map
            (Option.map (fun x => x * 100))
    ∧ r0.pctChange = none
    ∧ (toMonthly [⟨2023,1,31⟩, ⟨2023,2,28⟩, ⟨2023,3,31⟩] [100, 110, 99]).map
        MonthlyRow.pctChange = [none, some 10, some (-10)] := by
  have hv : (toMonthly index adj).map MonthlyRow.adjClose
      = (resampleME_last index adj).map Prod.snd := by
    have h2 := congrArg (List.map Prod.snd) (toMonthly_map_pair index adj)
    rw [List.map_map] at h2
    simpa [Function.comp] using h2
  refine ⟨?_, ?_, ?_, ?_, ?_⟩
  · rw [toMonthly_map_pair, resampleME_last_eq index adj f l hf hl]
  · have hz := chain'_zip_fst index adj hch
    haveI : IsTrans (Date × Rat) (fun p q => dateLT p.1 q.1 = true) :=
      ⟨fun a b c h1 h2 => dateLT_trans _ _ _ h1 h2⟩
    have hfil : List.Chain' (fun a b : Date × Rat => dateLT a.1 b.1 = true)
        ((index.zip adj).filter (fun r => monthIndex r.1 == mi)) :=
      hz.sublist (List.filter_sublist _)
    exact chain'_key_getLast_max Prod.fst _ hfil q hq p hp
  · rw [hv, toMonthly_map_pct]
  · have hTM : toMonthly index adj ≠ [] := by
      intro hemp
      rw [hemp] at hr0
      simp at hr0
    have h1 : ((toMonthly index adj).map MonthlyRow.pctChange).head?
        = some r0.pctChange := by
      rw [List.head?_map, hr0]
      rfl
    have hvne : (toMonthly index adj).map MonthlyRow.adjClose ≠ [] := by
      intro hemp
      exact hTM (List.map_eq_nil.mp hemp)
    rw [toMonthly_map_pct, ← hv, List.head?_map, pct_change1_opt_head? _ hvne] at h1
    simpa using h1.symm
  · have he : (toMonthly [⟨2023,1,31⟩, ⟨2023,2,28⟩, ⟨2023,3,31⟩] [100, 110, 99]).map
        MonthlyRow.pctChange
        = [none, some (((110:Rat) - 100) / 100 * 100),
           some (((99:Rat) - 110) / 110 * 100)] := rfl
    rw [he]
    norm_num

/-- Claim C7, witness for `toMonthly_month_bins` at the three-point
January–March 2023 series. -/
theorem toMonthly_month_bins_witness :
    (toMonthly [⟨2023,1,31⟩, ⟨2023,2,28⟩, ⟨2023,3,31⟩] [100, 110, 99]).map
        (fun r => (r.monthEnd, r.adjClose))
      = (monthRange (monthIndex ⟨2023,1,31⟩) (monthIndex ⟨2023,3,31⟩)).map (fun mj =>
          (monthEndDate mj,
            ((([⟨2023,1,31⟩, ⟨2023,2,28⟩, ⟨2023,3,31⟩].zip
                  ([100, 110, 99] : List Rat)).filter
                (fun r => monthIndex r.1 == mj)).map Prod.snd).getLast?))
    ∧ dateLE ((⟨2023,1,31⟩ : Date), (100 : Rat)).1 ((⟨2023,1,31⟩ : Date), (100 : Rat)).1
        = true
    ∧ (toMonthly [⟨2023,1,31⟩, ⟨2023,2,28⟩, ⟨2023,3,31⟩] [100, 110, 99]).map
        MonthlyRow.pctChange
      = (pct_change1_opt
            ((toMonthly [⟨2023,1,31⟩, ⟨2023,2,28⟩, ⟨2023,3,31⟩] [100, 110, 99]).map
              MonthlyRow.adjClose)).map (Option.map (fun x => x * 100))
    ∧ (MonthlyRow.mk ⟨2023,1,31⟩ (some 100) none).pctChange = none
    ∧ (toMonthly [⟨2023,1,31⟩, ⟨2023,2,28⟩, ⟨2023,3,31⟩] [100, 110, 99]).map
        MonthlyRow.pctChange = [none, some 10, some (-10)] :=
  toMonthly_month_bins [⟨2023,1,31⟩, ⟨2023,2,28⟩, ⟨2023,3,31⟩] [100, 110, 99]
    ⟨2023,1,31⟩ ⟨2023,3,31⟩ (monthIndex ⟨2023,1,31⟩)
    ((⟨2023,1,31⟩ : Date), (100 : Rat)) ((⟨2023,1,31⟩ : Date), (100 : Rat))
    (MonthlyRow.mk ⟨2023,1,31⟩ (some 100) none)
    rfl rfl (by simp [List.chain'_cons, List.chain'_singleton]; decide) rfl
    (List.mem_cons_self _ _) rfl
